import Mathlib

/-!
Verification of the LatSpace Excel parser (TRACK-A repository).

The repository's `src/` tree holds the Next.js frontend (`FileUpload.tsx`,
`ResultsDisplay.tsx`, `types.ts`, `page.tsx`) and the test-data notes; the
FastAPI core (normalizer, three-tier matcher, structure detector, value
parser) is referenced but not shipped under `src/`, so those components are
modelled from the specification, faithful to its wording, and checked
against the concrete behaviour documented in the repository README
(e.g. the audit example mapping the power-output header to its
all-lowercase alphanumeric normalized key).
-/

namespace TrackA

/- ===================== Definitions ===================== -/

/-- A character the normalizer keeps: lowercase letter or digit. -/
def isLowerAlnum (c : Char) : Bool :=
  (('a' ≤ c && c ≤ 'z') || ('0' ≤ c && c ≤ '9'))

/-- Modelled from the spec: Header Normalizer (section 4.2) — lower-case and
remove every character outside lowercase [a-z0-9]; whitespace, underscores
and punctuation all disappear.  The separator is empty, matching the
repository README's audit example where the normalized key of the
power-output header is the bare lowercase alphanumeric string. -/
def normalize (s : String) : String :=
  String.mk ((s.data.map Char.toLower).filter isLowerAlnum)

/-- The closed set of noise characters named by claim C3: whitespace
(space, tab, newline, carriage return), underscore, and punctuation. -/
def noiseChars : List Char :=
  [' ', Char.ofNat 9, Char.ofNat 10, Char.ofNat 13, '_',
   '.', ',', '-', '(', ')', '[', ']', '/', ':', ';', '%', '#', '&',
   '+', '*', '=', '<', '>', '|', '~', '@', '!', '?']

/-- Whether a character is one of the claim's noise characters. -/
def isNoiseChar (c : Char) : Bool := noiseChars.contains c

/-- Case-fold a string and erase every noise character.  Two headers are
related as "differing only in case, whitespace, underscores, or
punctuation" precisely when this erasure coincides on them. -/
def stripNoise (s : String) : List Char :=
  (s.data.map Char.toLower).filter (fun c => !(isNoiseChar c))

/-- Lower-case every character of a string. -/
def toLowerStr (s : String) : String := String.mk (s.data.map Char.toLower)

/-- ASCII digit test. -/
def isDigitChar (c : Char) : Bool := '0' ≤ c && c ≤ '9'

/-- ASCII letter test. -/
def isAlphaChar (c : Char) : Bool :=
  ('a' ≤ c && c ≤ 'z') || ('A' ≤ c && c ≤ 'Z')

/-- Space or tab. -/
def isSpaceChar (c : Char) : Bool := c = ' ' || c.toNat = 9

/-- Strip leading and trailing spaces from a character list. -/
def trimChars (l : List Char) : List Char :=
  ((l.dropWhile isSpaceChar).reverse.dropWhile isSpaceChar).reverse

/-- Strip leading and trailing spaces from a string. -/
def trimStr (s : String) : String := String.mk (trimChars s.data)

/-- Numeric value of an ASCII digit. -/
def digitVal (c : Char) : ℕ := c.toNat - 48

/-- The natural number denoted by a digit list. -/
def natOfDigits (l : List Char) : ℕ :=
  l.foldl (fun acc c => 10 * acc + digitVal c) 0

/-- Parse an unsigned decimal numeral (digits, optional point and fraction
digits) into a mantissa and a positive power-of-ten denominator. -/
def parseDecimalParts (l : List Char) : Option (ℕ × ℕ) :=
  match l.span isDigitChar with
  | (intPart, rest) =>
    if intPart.isEmpty then Option.none
    else
      match rest with
      | [] => some (natOfDigits intPart, 1)
      | c :: fracPart =>
        if c = '.' && !fracPart.isEmpty && fracPart.all isDigitChar then
          some (natOfDigits intPart * 10 ^ fracPart.length + natOfDigits fracPart,
            10 ^ fracPart.length)
        else Option.none

/-- Modelled from the spec: numeric body of the Value Parser (section 4.6
rule 2) — optional minus sign, decimal numeral, then an optional trailing
all-letter unit suffix such as MW, T or k.  Returns a signed mantissa and
a positive denominator. -/
def parseNumericBody (l : List Char) : Option (ℤ × ℕ) :=
  match
    (match l with
     | c :: r => if c = '-' then (true, r) else (false, l)
     | [] => (false, ([] : List Char))) with
  | (neg, body) =>
    match body.span (fun c => isDigitChar c || c = '.') with
    | (numPart, rest) =>
      if (trimChars rest).all isAlphaChar then
        (parseDecimalParts numPart).map
          (fun md => (if neg then -(md.1 : ℤ) else (md.1 : ℤ), md.2))
      else Option.none

/-- Modelled from the spec: numeric parsing (section 4.6 rule 2) — strip
thousands separators, then a trailing percent sign divides the parsed
magnitude by 100. -/
def parseNumericChars (l : List Char) : Option ℚ :=
  let cleaned := trimChars (l.filter (fun c => !(c = ',')))
  if cleaned.getLast? = some '%' then
    (parseNumericBody (trimChars cleaned.dropLast)).map (fun md => mkRat md.1 (md.2 * 100))
  else (parseNumericBody cleaned).map (fun md => mkRat md.1 md.2)

/-- Modelled from the spec: the fixed case-insensitive null-sentinel set of
the Value Parser (section 4.6 rule 1). -/
def nullSentinels : List String := ["", "n/a", "na", "null", "nil", "zero", "-", "--"]

/-- Modelled from the spec: the boolean-like word map (section 4.6 rule 3). -/
def boolWords (low : String) : Option ℚ :=
  if low = "yes" || low = "true" then some 1
  else if low = "no" || low = "false" then some 0
  else Option.none

/-- Declared value types a resolved parameter can carry (section 4.6). -/
inductive ValueType
  | numeric
  | percentage
  | boolean
  | categorical
  | unknownType
deriving DecidableEq

/-- A typed parsed value: exact rational for numeric-like results, string
for categorical pass-through. -/
inductive TypedValue
  | num (q : ℚ)
  | str (s : String)
deriving DecidableEq

/-- Outcome of parsing one cell: value, success flag, error message. -/
structure CellParse where
  parsed_value : Option TypedValue
  parse_success : Bool
  parse_error : Option String
deriving DecidableEq

/-- Modelled from the spec: the Value Parser's per-cell contract
(section 4.6), rules in priority order: null sentinels first, then the
rule selected by the declared value type. -/
def parseValue (vt : ValueType) (raw : String) : CellParse :=
  let low := toLowerStr raw
  if nullSentinels.contains low then ⟨Option.none, true, Option.none⟩
  else
    match vt with
    | ValueType.numeric | ValueType.percentage =>
      match parseNumericChars raw.data with
      | some q => ⟨some (TypedValue.num q), true, Option.none⟩
      | Option.none =>
        match boolWords low with
        | some q => ⟨some (TypedValue.num q), true, Option.none⟩
        | Option.none => ⟨Option.none, false, some "could not parse numeric value"⟩
    | ValueType.boolean =>
      match boolWords low with
      | some q => ⟨some (TypedValue.num q), true, Option.none⟩
      | Option.none => ⟨Option.none, false, some "could not parse boolean value"⟩
    | ValueType.categorical | ValueType.unknownType =>
      ⟨some (TypedValue.str (trimStr raw)), true, Option.none⟩

/-- A merged-cell region, translated from frontend/app/types.ts. -/
structure MergedRegion where
  min_row : ℕ
  max_row : ℕ
  min_col : ℕ
  max_col : ℕ
deriving DecidableEq

/-- TableStructure, translated from frontend/app/types.ts. -/
structure TableStructure where
  header_row_index : ℕ
  data_start_row : ℕ
  column_count : ℕ
  merged_cells : List MergedRegion
deriving DecidableEq

/-- A raw spreadsheet cell value (section 3, RawGrid): string, number,
boolean, or empty. -/
inductive RawCell
  | str (s : String)
  | num (q : ℚ)
  | boolv (b : Bool)
  | emptyCell
deriving DecidableEq

/-- RawGrid (section 3): rows of raw cells plus merged-cell regions. -/
structure RawGrid where
  rows : List (List RawCell)
  merged_cells : List MergedRegion

/-- Whether a raw cell is blank. -/
def RawCell.isBlank : RawCell → Bool
  | RawCell.emptyCell => true
  | RawCell.str s => trimStr s = ""
  | _ => false

/-- Number of non-blank cells in a row. -/
def nonEmptyCount (r : List RawCell) : ℕ :=
  (r.filter (fun c => !c.isBlank)).length

/-- The modal (most frequent) element of a list of naturals. -/
def modeOf (l : List ℕ) : ℕ :=
  l.foldl (fun best x => if l.count x > l.count best then x else best) 0

/-- Modelled from the spec: minimum density threshold relative to the
grid's modal non-empty column count (section 4.1). -/
def headerDensityThreshold (g : RawGrid) : ℕ :=
  max 1 (modeOf ((g.rows.map nonEmptyCount).filter (fun n => n != 0)) / 2)

/-- Whether a raw cell is evidence of a data row rather than another
all-text title row: a number, a boolean, or a numeric-parsable string. -/
def RawCell.isDataLike : RawCell → Bool
  | RawCell.num _ => true
  | RawCell.boolv _ => true
  | RawCell.str s => (parseNumericChars s.data).isSome
  | RawCell.emptyCell => false

/-- Modelled from the spec: Table Structure Detector scan (section 4.1) —
the header row is the first row whose non-empty cell count reaches the
density threshold and whose following row holds at least one data-like
cell. -/
def findHeaderRow (g : RawGrid) : Option ℕ :=
  (g.rows.zip g.rows.tail).findIdx?
    (fun p => decide (nonEmptyCount p.1 ≥ headerDensityThreshold g) && p.2.any RawCell.isDataLike)

/-- Modelled from the spec: Table Structure Detector contract
(section 4.1) — fail when fewer than two non-empty rows exist or no
plausible header row is found; otherwise the data region starts on the row
after the header row and merged cells are copied verbatim. -/
def detectStructure (g : RawGrid) : Option TableStructure :=
  if (g.rows.filter (fun r => nonEmptyCount r != 0)).length < 2 then Option.none
  else
    match findHeaderRow g with
    | some i => some ⟨i, i + 1, (g.rows.getD i []).length, g.merged_cells⟩
    | Option.none => Option.none

/-- MatchMethod, translated from frontend/app/types.ts. -/
inductive MatchMethod
  | exact
  | fuzzy
  | llm
  | none
deriving DecidableEq

/-- ConfidenceLevel, translated from frontend/app/types.ts. -/
inductive ConfidenceLevel
  | high
  | medium
  | low
deriving DecidableEq

/-- HeaderMapping, translated from frontend/app/types.ts. -/
structure HeaderMapping where
  original_header : String
  matched_parameter : Option String
  matched_asset : Option String
  method : MatchMethod
  confidence : ConfidenceLevel
  normalized_header : Option String
deriving DecidableEq

/-- ParsedCell, translated from frontend/app/types.ts. -/
structure ParsedCell where
  row_index : ℕ
  column_index : ℕ
  original_value : String
  parsed_value : Option TypedValue
  header_mapping : HeaderMapping
  parse_success : Bool
  parse_error : Option String
deriving DecidableEq

/-- ParseResult, translated from frontend/app/types.ts. -/
structure ParseResult where
  file_name : String
  table_structure : TableStructure
  header_mappings : List HeaderMapping
  parsed_data : List (List ParsedCell)
  total_cells : ℕ
  successful_parses : ℕ
  llm_calls_made : ℕ
deriving DecidableEq

/-- Translated from ResultsDisplay.tsx lines 40-42: mappings with low
confidence. -/
def lowConfidenceMappings (r : ParseResult) : List HeaderMapping :=
  r.header_mappings.filter (fun m => decide (m.confidence = ConfidenceLevel.low))

/-- Translated from ResultsDisplay.tsx lines 43-45: mappings with method
none. -/
def unmappedColumns (r : ParseResult) : List HeaderMapping :=
  r.header_mappings.filter (fun m => decide (m.method = MatchMethod.none))

/-- Translated from ResultsDisplay.tsx line 240: the preview row label is
the first cell's row_index unless that is absent or zero (JavaScript
falsy), in which case the zero-based position plus one is shown. -/
def rowLabel (row : List ParsedCell) (rowIdx : ℕ) : ℕ :=
  match row.head? with
  | some c => if c.row_index = 0 then rowIdx + 1 else c.row_index
  | Option.none => rowIdx + 1

/-- The observable pieces of the rendered results page. -/
structure DisplayView where
  unmappedAlert : Option (ℕ × List String)
  lowConfAlert : Option ℕ
  mappingRows : List HeaderMapping
  previewRows : List (List ParsedCell)
  previewLabels : List ℕ
  previewHeaderCount : ℕ
  footer : Option ℕ
deriving DecidableEq

/-- Translated from ResultsDisplay.tsx: the alert cards (lines 87-144),
the full header-mapping table (lines 176-205), the ten-row data preview
(lines 216, 237-240) and the overflow footer (lines 259-263). -/
def renderDisplay (r : ParseResult) : DisplayView :=
  let low := lowConfidenceMappings r
  let unm := unmappedColumns r
  { unmappedAlert :=
      if unm.length > 0 then some (unm.length, unm.map (fun m => m.original_header))
      else Option.none
  , lowConfAlert := if low.length > 0 then some low.length else Option.none
  , mappingRows := r.header_mappings
  , previewRows := r.parsed_data.take 10
  , previewLabels := (r.parsed_data.take 10).enum.map (fun p => rowLabel p.2 p.1)
  , previewHeaderCount := min 10 r.parsed_data.length
  , footer := if r.parsed_data.length > 10 then some r.parsed_data.length else Option.none }

/-- A file as the upload component sees it. -/
structure UploadFile where
  name : String
deriving DecidableEq

/-- Translated from FileUpload.tsx line 31: name ends with .xlsx or .xls. -/
def hasExcelExtension (n : String) : Bool :=
  (".xlsx".data).isSuffixOf n.data || (".xls".data).isSuffixOf n.data

/-- Translated from FileUpload.tsx handleDrop (lines 24-37): a dropped
file is selected only when its name has an Excel extension; otherwise an
alert fires (second component) and the selection is unchanged. -/
def handleDrop (f : UploadFile) (selected : Option UploadFile) : Option UploadFile × Bool :=
  if hasExcelExtension f.name then (some f, false) else (selected, true)

/-- Translated from FileUpload.tsx handleChange (lines 39-44): the file
picked in the browse dialog is selected with no extension check. -/
def handleChange (f : UploadFile) (_selected : Option UploadFile) : Option UploadFile :=
  some f

/-- Translated from FileUpload.tsx handleSubmit (lines 46-50): the
selected file, if any, is the one submitted. -/
def handleSubmit (selected : Option UploadFile) : Option UploadFile :=
  selected

/-- Modelled from the spec: the Registry interface (section 6) — the
normalized-alias index and the known-asset set. -/
structure Registry where
  aliasIndex : List (String × String)
  knownAssets : List String

/-- Association-list lookup for the normalized-alias index. -/
def lookupIndex : List (String × String) → String → Option String
  | [], _ => Option.none
  | (k, v) :: rest, key => if k = key then some v else lookupIndex rest key

/-- Modelled from the spec: Exact Matcher, Tier 1 (section 4.3) — lookup
of the normalized header against the alias index. -/
def tier1 (reg : Registry) (h : String) : Option String :=
  lookupIndex reg.aliasIndex (normalize h)

/-- Split a character list on a separator character, dropping empty
pieces. -/
def splitOnChar (sep : Char) (l : List Char) : List (List Char) :=
  (l.foldr
    (fun c acc =>
      if c = sep then [] :: acc
      else
        match acc with
        | t :: ts => (c :: t) :: ts
        | [] => [[c]])
    [[]]).filter (fun t => !t.isEmpty)

/-- Join token lists with single spaces. -/
def joinWithSpace : List (List Char) → List Char
  | [] => []
  | [t] => t
  | t :: ts => t ++ ' ' :: joinWithSpace ts

/-- Modelled from the spec: an asset-identifier token (section 4.4,
glossary) — letter groups joined by dashes ending in a digit group, such
as TG-1 or ID-FAN-1. -/
def isAssetToken (t : List Char) : Bool :=
  match (splitOnChar '-' t).reverse with
  | lastPart :: earlier =>
    !earlier.isEmpty && !lastPart.isEmpty && lastPart.all isDigitChar &&
      earlier.all (fun p => !p.isEmpty && p.all isAlphaChar)
  | [] => false

/-- Modelled from the spec: Asset Pattern Matcher, Tier 2 (section 4.4).
Two patterns in a fixed order, first-match-wins: asset token leading, then
asset token trailing.  The identifier must validate against the known-asset
set, else the pattern is a non-match; the residual text is normalized and
looked up through the Tier-1 index. -/
def tier2 (reg : Registry) (h : String) : Option (String × Option String) :=
  let tokens := splitOnChar ' ' h.data
  let leading :=
    match tokens with
    | t :: rest =>
      if !rest.isEmpty && isAssetToken t && reg.knownAssets.contains (String.mk t) then
        some (String.mk t, String.mk (joinWithSpace rest))
      else Option.none
    | [] => Option.none
  let chosen :=
    match leading with
    | some p => some p
    | Option.none =>
      match tokens.reverse with
      | t :: restRev =>
        if !restRev.isEmpty && isAssetToken t && reg.knownAssets.contains (String.mk t) then
          some (String.mk t, String.mk (joinWithSpace restRev.reverse))
        else Option.none
      | [] => Option.none
  match chosen with
  | some (asset, residual) => some (asset, lookupIndex reg.aliasIndex (normalize residual))
  | Option.none => Option.none

/-- The Tier-1 hit mapping: method exact, confidence high, no asset. -/
def exactMapping (h p : String) : HeaderMapping :=
  ⟨h, some p, Option.none, MatchMethod.exact, ConfidenceLevel.high, some (normalize h)⟩

/-- Modelled from the spec: Tiers 1 and 2 composed per header
(sections 4.3-4.4), with the Tier-2 stage abstracted as a parameter so
that non-consultation of Tier 2 after a Tier-1 hit is expressible. -/
def matchT12With (reg : Registry) (t2 : String → Option (String × Option String))
    (h : String) : HeaderMapping :=
  match tier1 reg h with
  | some p => exactMapping h p
  | Option.none =>
    match t2 h with
    | some (a, some p) =>
      ⟨h, some p, some a, MatchMethod.fuzzy, ConfidenceLevel.high, some (normalize h)⟩
    | some (a, Option.none) =>
      ⟨h, Option.none, some a, MatchMethod.fuzzy, ConfidenceLevel.medium, some (normalize h)⟩
    | Option.none =>
      ⟨h, Option.none, Option.none, MatchMethod.none, ConfidenceLevel.low, some (normalize h)⟩

/-- Tiers 1 and 2 with the registry's actual Tier-2 stage. -/
def matchT12 (reg : Registry) (h : String) : HeaderMapping :=
  matchT12With reg (tier2 reg) h

/-- The headers still unresolved after Tiers 1-2 (the Tier-3 batch). -/
def unresolvedList (reg : Registry) (headers : List String) : List String :=
  ((headers.map (matchT12 reg)).filter (fun m => decide (m.method = MatchMethod.none))).map
    (fun m => m.original_header)

/-- One structured record of the semantic matcher's response (section 6). -/
structure LLMResponseItem where
  original_header : String
  matched_parameter : Option String
  matched_asset : Option String
  confidence : ConfidenceLevel

/-- Whether a parameter name is present in the registry catalogue. -/
def registryHasParam (reg : Registry) (p : String) : Bool :=
  reg.aliasIndex.any (fun kv => decide (kv.2 = p))

/-- Modelled from the spec: Tier-3 response application with
re-validation (section 4.5) — a matched parameter absent from the registry
is discarded rather than propagated. -/
def applyLLM (reg : Registry) (items : List LLMResponseItem) (m : HeaderMapping) : HeaderMapping :=
  match items.find? (fun it => decide (it.original_header = m.original_header)) with
  | some it =>
    match it.matched_parameter with
    | some p =>
      if registryHasParam reg p then
        { m with matched_parameter := some p, matched_asset := it.matched_asset,
                 method := MatchMethod.llm, confidence := it.confidence }
      else m
    | Option.none => m
  | Option.none => m

/-- Modelled from the spec: the whole-file matching pipeline with the
Semantic Batch Matcher (section 4.5).  The second component counts the
outbound batched requests: the single batched call is issued only when the
unresolved list is non-empty. -/
def matchFile (reg : Registry) (oracle : List String → List LLMResponseItem)
    (headers : List String) : List HeaderMapping × ℕ :=
  let t12 := headers.map (matchT12 reg)
  if (unresolvedList reg headers).isEmpty then (t12, 0)
  else
    let items := oracle (unresolvedList reg headers)
    (t12.map (fun m => if m.method = MatchMethod.none then applyLLM reg items m else m), 1)

/-- Modelled from the spec: Result Assembler (section 4.7) — llm_calls_made
is taken directly from whether the Tier-3 batch executed. -/
def mkParseResult (fname : String) (ts : TableStructure) (reg : Registry)
    (oracle : List String → List LLMResponseItem) (headers : List String)
    (data : List (List ParsedCell)) : ParseResult :=
  ⟨fname, ts, (matchFile reg oracle headers).1, data,
   (data.map List.length).sum,
   (data.map (fun row => (row.filter (fun c => c.parse_success)).length)).sum,
   (matchFile reg oracle headers).2⟩

/-- A small registry for concrete witnesses. -/
def sampleRegistry : Registry :=
  ⟨[("poweroutput", "Power_Output"), ("temperature", "Temperature")], ["TG-1"]⟩

/-- A small grid for concrete witnesses. -/
def sampleGrid : RawGrid :=
  ⟨[[RawCell.str "Power_Output", RawCell.str "Temperature"],
    [RawCell.num 1, RawCell.num 2]], []⟩

/-- A header mapping for concrete witnesses. -/
def sampleMapping : HeaderMapping :=
  ⟨"Timestamp", Option.none, Option.none, MatchMethod.none, ConfidenceLevel.low,
   some "timestamp"⟩

/-- A parsed cell with a chosen row index, for concrete witnesses. -/
def sampleCell (n : ℕ) : ParsedCell :=
  ⟨n, 0, "1", some (TypedValue.num 1), sampleMapping, true, Option.none⟩

/-- A parse result with eleven preview rows, for concrete witnesses. -/
def sampleResult : ParseResult :=
  ⟨"cea_coal_report_real.xlsx", ⟨0, 1, 0, []⟩, [], List.replicate 11 [], 0, 0, 0⟩

/- ===================== Theorems ===================== -/

theorem noise_not_alnum (c : Char) (h : isNoiseChar c = true) :
    isLowerAlnum c = false := by
  have hmem : c ∈ noiseChars := by
    simpa [isNoiseChar] using h
  fin_cases hmem <;> decide

theorem filter_alnum_of_stripNoise (l : List Char) :
    l.filter isLowerAlnum
      = (l.filter (fun c => !(isNoiseChar c))).filter isLowerAlnum := by
  rw [List.filter_filter]
  apply List.filter_congr
  intro a _
  cases hn : isNoiseChar a with
  | true => simp [noise_not_alnum a hn]
  | false => simp [hn]

/-- C3: headers that differ only in case, leading/trailing or internal
whitespace, underscores, or punctuation — i.e. whose case-folded,
noise-erased forms agree — produce identical normalized strings. -/
theorem normalize_invariant_under_noise (h1 h2 : String)
    (h : stripNoise h1 = stripNoise h2) : normalize h1 = normalize h2 := by
  have e1 := filter_alnum_of_stripNoise (h1.data.map Char.toLower)
  have e2 := filter_alnum_of_stripNoise (h2.data.map Char.toLower)
  unfold normalize
  unfold stripNoise at h
  rw [e1, e2, h]

/-- Witness for C3 at a concrete pair of headers differing in case,
whitespace, underscore and punctuation. -/
theorem normalize_invariant_under_noise_witness :
    stripNoise "Power_Output" = stripNoise " power output!" ∧
      normalize "Power_Output" = normalize " power output!" := by
  refine ⟨by decide, normalize_invariant_under_noise _ _ (by decide)⟩

/-- C5: a cell whose raw value is, case-insensitively, one of the fixed
null sentinels parses to a null value with parse_success true — in
particular the sentinel list contains the word zero, which therefore maps
to null rather than to the number 0. -/
theorem parse_null_sentinels (vt : ValueType) (raw : String)
    (h : nullSentinels.contains (toLowerStr raw) = true) :
    parseValue vt raw = ⟨Option.none, true, Option.none⟩ := by
  have hm : toLowerStr raw ∈ nullSentinels := by simpa using h
  unfold parseValue
  simp [hm]

/-- Witness for C5: the value "ZERO" (and "zero", "nil") parses to null
with success, not to the number 0. -/
theorem parse_null_sentinels_witness :
    nullSentinels.contains (toLowerStr "ZERO") = true ∧
      parseValue ValueType.numeric "ZERO" = ⟨Option.none, true, Option.none⟩ ∧
      parseValue ValueType.numeric "nil" = ⟨Option.none, true, Option.none⟩ :=
  ⟨by decide, parse_null_sentinels ValueType.numeric "ZERO" (by decide),
    parse_null_sentinels ValueType.numeric "nil" (by decide)⟩

/-- C6: for numeric-typed cells the parser strips thousands separators and
unit suffixes and divides by 100 on a trailing percent sign: "1,234.56"
parses to 1234.56, "45%" to 0.45, and "1980 MW" to 1980. -/
theorem parse_numeric_examples :
    parseValue ValueType.numeric "1,234.56"
        = ⟨some (TypedValue.num (1234.56 : ℚ)), true, Option.none⟩ ∧
      parseValue ValueType.numeric "45%"
        = ⟨some (TypedValue.num (0.45 : ℚ)), true, Option.none⟩ ∧
      parseValue ValueType.numeric "1980 MW"
        = ⟨some (TypedValue.num (1980 : ℚ)), true, Option.none⟩ := by
  have b1 : (mkRat 123456 100 : ℚ) = (1234.56 : ℚ) := by
    rw [Rat.mkRat_eq_div]; norm_num
  have b2 : (mkRat 45 (1 * 100) : ℚ) = (0.45 : ℚ) := by
    rw [Rat.mkRat_eq_div]; norm_num
  have b3 : (mkRat 1980 1 : ℚ) = (1980 : ℚ) := by decide
  refine ⟨?_, ?_, ?_⟩
  · calc parseValue ValueType.numeric "1,234.56"
        = ⟨some (TypedValue.num (mkRat 123456 100)), true, Option.none⟩ := by decide
      _ = ⟨some (TypedValue.num (1234.56 : ℚ)), true, Option.none⟩ := by rw [b1]
  · calc parseValue ValueType.numeric "45%"
        = ⟨some (TypedValue.num (mkRat 45 (1 * 100))), true, Option.none⟩ := by decide
      _ = ⟨some (TypedValue.num (0.45 : ℚ)), true, Option.none⟩ := by rw [b2]
  · calc parseValue ValueType.numeric "1980 MW"
        = ⟨some (TypedValue.num (mkRat 1980 1)), true, Option.none⟩ := by decide
      _ = ⟨some (TypedValue.num (1980 : ℚ)), true, Option.none⟩ := by rw [b3]

/-- C4: every TableStructure the detector computes satisfies
data_start_row = header_row_index + 1 (and, the model being purely
functional, is immutable once computed). -/
theorem data_start_row_invariant (g : RawGrid) (ts : TableStructure)
    (h : detectStructure g = some ts) :
    ts.data_start_row = ts.header_row_index + 1 := by
  unfold detectStructure at h
  split at h
  · cases h
  · split at h
    · injection h with h2
      rw [← h2]
    · cases h

/-- Witness for C4 on a concrete two-row grid. -/
theorem data_start_row_invariant_witness :
    detectStructure sampleGrid = some ⟨0, 1, 2, []⟩ ∧
      (⟨0, 1, 2, []⟩ : TableStructure).data_start_row
        = (⟨0, 1, 2, []⟩ : TableStructure).header_row_index + 1 :=
  ⟨by decide, data_start_row_invariant sampleGrid ⟨0, 1, 2, []⟩ (by decide)⟩

/-- C7: the display surfaces exactly the low-confidence mappings and
exactly the method-none mappings as review alerts, while the
header-mapping table still renders every mapping of the result. -/
theorem review_alerts_surface_exactly (r : ParseResult) :
    (∀ m, m ∈ lowConfidenceMappings r ↔
      (m ∈ r.header_mappings ∧ m.confidence = ConfidenceLevel.low)) ∧
    (∀ m, m ∈ unmappedColumns r ↔
      (m ∈ r.header_mappings ∧ m.method = MatchMethod.none)) ∧
    (renderDisplay r).mappingRows = r.header_mappings ∧
    ((renderDisplay r).unmappedAlert
      = if (unmappedColumns r).length > 0 then
          some ((unmappedColumns r).length, (unmappedColumns r).map (fun m => m.original_header))
        else Option.none) ∧
    ((renderDisplay r).lowConfAlert
      = if (lowConfidenceMappings r).length > 0 then some (lowConfidenceMappings r).length
        else Option.none) := by
  refine ⟨?_, ?_, rfl, rfl, rfl⟩
  · intro m
    simp [lowConfidenceMappings, List.mem_filter]
  · intro m
    simp [unmappedColumns, List.mem_filter]

/-- Witness for C7 on a concrete result holding one low-confidence,
method-none mapping. -/
theorem review_alerts_surface_exactly_witness :
    sampleMapping ∈ unmappedColumns
        ⟨"f.xlsx", ⟨0, 1, 1, []⟩, [sampleMapping], [], 0, 0, 0⟩ ∧
      sampleMapping ∈ lowConfidenceMappings
        ⟨"f.xlsx", ⟨0, 1, 1, []⟩, [sampleMapping], [], 0, 0, 0⟩ := by
  have h := review_alerts_surface_exactly ⟨"f.xlsx", ⟨0, 1, 1, []⟩, [sampleMapping], [], 0, 0, 0⟩
  exact ⟨(h.2.1 sampleMapping).mpr ⟨by decide, by decide⟩,
    (h.1 sampleMapping).mpr ⟨by decide, by decide⟩⟩

/-- C9: the preview row label is the first cell's row_index, except that
an empty row or a first-cell row_index of 0 yields the zero-based position
plus one; in particular no preview row is ever labeled 0. -/
theorem preview_row_label_rule (row : List ParsedCell) (i : ℕ) :
    (∀ c, row.head? = some c → c.row_index ≠ 0 → rowLabel row i = c.row_index) ∧
    (∀ c, row.head? = some c → c.row_index = 0 → rowLabel row i = i + 1) ∧
    (row.head? = Option.none → rowLabel row i = i + 1) ∧
    0 < rowLabel row i := by
  refine ⟨?_, ?_, ?_, ?_⟩
  · intro c hc hnz
    unfold rowLabel
    rw [hc]
    simp [hnz]
  · intro c hc hz
    unfold rowLabel
    rw [hc]
    simp [hz]
  · intro hc
    unfold rowLabel
    rw [hc]
  · unfold rowLabel
    cases hh : row.head? with
    | none => simp
    | some c =>
      by_cases hz : c.row_index = 0
      · simp [hz]
      · simp [hz]
        exact Nat.pos_of_ne_zero hz

/-- Witness for C9: a first cell with row_index 0 is relabeled from the
position, a nonzero row_index is shown as-is, an empty row falls back. -/
theorem preview_row_label_rule_witness :
    rowLabel [sampleCell 0] 4 = 5 ∧ rowLabel [sampleCell 7] 4 = 7 ∧
      rowLabel ([] : List ParsedCell) 3 = 4 :=
  ⟨(preview_row_label_rule [sampleCell 0] 4).2.1 (sampleCell 0) rfl rfl,
   (preview_row_label_rule [sampleCell 7] 4).1 (sampleCell 7) rfl (by decide),
   (preview_row_label_rule [] 3).2.2.1 rfl⟩

/-- C10: the preview renders exactly min(10, number of parsed rows) rows,
as a prefix of parsed_data, and whenever more than 10 rows exist the
footer reports the total row count. -/
theorem preview_rows_and_footer (r : ParseResult) :
    (renderDisplay r).previewRows = r.parsed_data.take 10 ∧
    (renderDisplay r).previewRows.length = min 10 r.parsed_data.length ∧
    (renderDisplay r).previewHeaderCount = min 10 r.parsed_data.length ∧
    (10 < r.parsed_data.length → (renderDisplay r).footer = some r.parsed_data.length) ∧
    ((renderDisplay r).footer.isSome ↔ 10 < r.parsed_data.length) := by
  refine ⟨rfl, ?_, rfl, ?_, ?_⟩
  · simp [renderDisplay]
  · intro h
    simp [renderDisplay, h]
  · by_cases h : 10 < r.parsed_data.length
    · simp [renderDisplay, h]
    · simp [renderDisplay, h]

/-- Witness for C10 on a result with eleven rows: ten preview rows and the
footer reporting eleven. -/
theorem preview_rows_and_footer_witness :
    10 < sampleResult.parsed_data.length ∧
      (renderDisplay sampleResult).previewRows.length = 10 ∧
      (renderDisplay sampleResult).footer = some 11 := by
  have h := preview_rows_and_footer sampleResult
  refine ⟨by decide, ?_, ?_⟩
  · rw [h.2.1]
    decide
  · rw [h.2.2.2.1 (by decide)]
    decide

/-- C8: extension validation is asymmetric — a dropped file without an
Excel extension is rejected (alert, selection unchanged), while the same
file chosen through the browse dialog is selected unconditionally and is
what submit uploads. -/
theorem upload_extension_validation_asymmetry (f : UploadFile) (s : Option UploadFile)
    (h : hasExcelExtension f.name = false) :
    handleDrop f s = (s, true) ∧
    handleChange f s = some f ∧
    handleSubmit (handleChange f s) = some f := by
  refine ⟨?_, rfl, rfl⟩
  unfold handleDrop
  simp [h]

/-- Witness for C8 at a concrete non-Excel file name. -/
theorem upload_extension_validation_asymmetry_witness :
    hasExcelExtension "report.pdf" = false ∧
      handleDrop ⟨"report.pdf"⟩ Option.none = (Option.none, true) ∧
      handleSubmit (handleChange ⟨"report.pdf"⟩ Option.none) = some ⟨"report.pdf"⟩ :=
  ⟨by decide,
   (upload_extension_validation_asymmetry ⟨"report.pdf"⟩ Option.none (by decide)).1,
   (upload_extension_validation_asymmetry ⟨"report.pdf"⟩ Option.none (by decide)).2.2⟩

theorem matchT12_original (reg : Registry) (h : String) :
    (matchT12 reg h).original_header = h := by
  unfold matchT12 matchT12With exactMapping
  cases tier1 reg h with
  | some p => rfl
  | none =>
    cases tier2 reg h with
    | some pr =>
      cases pr with
      | mk a po => cases po <;> rfl
    | none => rfl

/-- C1: the Tier-3 batch is issued exactly once when at least one header
is unresolved after Tiers 1-2 and exactly zero times otherwise; the
llm_calls_made counter of the assembled ParseResult is always 0 or 1, and
with no unresolved header the result does not depend on the semantic
matcher at all. -/
theorem llm_single_call_guarantee (fname : String) (ts : TableStructure)
    (reg : Registry) (oracle : List String → List LLMResponseItem)
    (headers : List String) (data : List (List ParsedCell)) :
    ((mkParseResult fname ts reg oracle headers data).llm_calls_made
        = if (unresolvedList reg headers).isEmpty then 0 else 1) ∧
    ((mkParseResult fname ts reg oracle headers data).llm_calls_made = 0 ∨
      (mkParseResult fname ts reg oracle headers data).llm_calls_made = 1) ∧
    ((unresolvedList reg headers).isEmpty = true →
      ∀ oracle2, mkParseResult fname ts reg oracle headers data
        = mkParseResult fname ts reg oracle2 headers data) := by
  refine ⟨?_, ?_, ?_⟩
  · unfold mkParseResult matchFile
    cases h : (unresolvedList reg headers).isEmpty <;> simp [h]
  · unfold mkParseResult matchFile
    cases h : (unresolvedList reg headers).isEmpty <;> simp [h]
  · intro h oracle2
    unfold mkParseResult matchFile
    simp [h]

/-- Witness for C1: one fully exact-matched header gives zero calls and an
oracle-independent result. -/
theorem llm_single_call_guarantee_witness :
    (unresolvedList sampleRegistry ["Power_Output"]).isEmpty = true ∧
      (mkParseResult "clean.xlsx" ⟨0, 1, 1, []⟩ sampleRegistry (fun _ => [])
        ["Power_Output"] []).llm_calls_made = 0 ∧
      mkParseResult "clean.xlsx" ⟨0, 1, 1, []⟩ sampleRegistry (fun _ => [])
          ["Power_Output"] []
        = mkParseResult "clean.xlsx" ⟨0, 1, 1, []⟩ sampleRegistry
            (fun _ => [⟨"x", Option.none, Option.none, ConfidenceLevel.low⟩])
            ["Power_Output"] [] := by
  have h := llm_single_call_guarantee "clean.xlsx" ⟨0, 1, 1, []⟩ sampleRegistry
    (fun _ => []) ["Power_Output"] []
  refine ⟨by decide, ?_, h.2.2 (by decide) _⟩
  rw [h.1]
  decide

/-- C2: the tiers run strictly in order — a header resolved by Tier 1
yields a result independent of the Tier-2 stage (Tier 2 is never
consulted), and a header resolved by Tier 1 or Tier 2 is absent from the
Tier-3 batch and its final mapping is untouched by the Tier-3 stage. -/
theorem tiering_order (reg : Registry) (headers : List String)
    (oracle : List String → List LLMResponseItem) (h : String) :
    (∀ p, tier1 reg h = some p →
      ∀ t2a t2b, matchT12With reg t2a h = matchT12With reg t2b h) ∧
    ((matchT12 reg h).method ≠ MatchMethod.none → h ∉ unresolvedList reg headers) ∧
    (∀ i, ∀ hi : i < headers.length,
      (matchT12 reg headers[i]).method ≠ MatchMethod.none →
      (matchFile reg oracle headers).1[i]? = some (matchT12 reg headers[i])) := by
  refine ⟨?_, ?_, ?_⟩
  · intro p hp t2a t2b
    unfold matchT12With
    rw [hp]
  · intro hm hmem
    unfold unresolvedList at hmem
    simp only [List.mem_map, List.mem_filter, decide_eq_true_eq] at hmem
    obtain ⟨m, ⟨hmmem, hmnone⟩, horig⟩ := hmem
    obtain ⟨x, hxmem, hxm⟩ := hmmem
    rw [← hxm] at hmnone horig
    rw [matchT12_original reg x] at horig
    rw [horig] at hmnone
    exact hm hmnone
  · intro i hi hm
    unfold matchFile
    cases hempty : (unresolvedList reg headers).isEmpty with
    | true =>
      simp [hempty]
      exact ⟨headers[i], List.getElem?_eq_getElem hi, rfl⟩
    | false =>
      simp [hempty]
      refine ⟨headers[i], List.getElem?_eq_getElem hi, ?_⟩
      rw [if_neg hm]

/-- Witness for C2: an exactly-matched header ignores the Tier-2 stage and
stays out of the Tier-3 batch. -/
theorem tiering_order_witness :
    matchT12With sampleRegistry (fun _ => Option.none) "Power_Output"
        = matchT12With sampleRegistry (tier2 sampleRegistry) "Power_Output" ∧
      "Power_Output" ∉ unresolvedList sampleRegistry ["Power_Output", "Mystery Rate"] := by
  have h := tiering_order sampleRegistry ["Power_Output", "Mystery Rate"]
    (fun _ => []) "Power_Output"
  exact ⟨h.1 "Power_Output" (by decide) _ _, h.2.1 (by decide)⟩

end TrackA
